import Mathlib

/-!
Shallow embedding of the Flappy-Bird-style game logic in `src/main.rs`
(bevy-based, single file). Coordinates and velocities are modelled over ℚ;
the source's `f32` constants (0.1, 5.0, 2.0, scales) are exact decimals, so
the arithmetic of every claim is about exact values. Bevy queries that can
fail are modelled explicitly: a lookup the source performs with `single()` /
`unwrap()` (which panic when the entity set is not a singleton / is empty)
is a `.error ()` outcome of `Except Unit`, while a silent early return
(`get_single()` inside `if let Ok`) stays in the `.ok` branch.
-/

namespace FlappyBird

/-- Two-dimensional vector (bevy `Vec2`), used for `Velocity.value`. -/
structure Vec2 where
  x : ℚ
  y : ℚ
deriving DecidableEq, Repr

/-- Three-dimensional vector (bevy `Vec3`), used for `Transform.translation`
and `Transform.scale`. -/
structure Vec3 where
  x : ℚ
  y : ℚ
  z : ℚ
deriving DecidableEq, Repr

/-- Entity transform: the fields of bevy `Transform` the game reads/writes. -/
structure Transform where
  translation : Vec3
  scale : Vec3
deriving DecidableEq, Repr

/-- Source line 4: `const BIRD_SCALE: f32 = 1.0`. -/
def BIRD_SCALE : ℚ := 1

/-- Source line 5: `const GROUND_SCALE: f32 = 2.0`. -/
def GROUND_SCALE : ℚ := 2

/-- Source line 6: `const PIPE_SCALE: Vec3 = Vec3::new(3., 5., 1.)`. -/
def PIPE_SCALE : Vec3 := ⟨3, 5, 1⟩

/-- Player state carried by `PlayerBundle` plus its `Transform`:
position and velocity (the `Gravity` and `Player` markers are implicit in
which systems we apply to it). -/
structure PV where
  pos : Vec2
  vel : Vec2
deriving DecidableEq, Repr

/-- Source lines 61-71, `PlayerBundle::default`: velocity `Vec2::new(2., 0.)`. -/
def playerBundleDefaultVelocity : Vec2 := ⟨2, 0⟩

/-- Source lines 123-150, `spawn_player`: the spawned player's translation is
`Vec3::new(0.0, 0.0, 2.0)` (projected to the 2D plane the motion systems use)
and its velocity is `PlayerBundle::default`'s. -/
def spawn_pv : PV := ⟨⟨0, 0⟩, playerBundleDefaultVelocity⟩

/-- Source lines 168-173, `update_player_position`:
`translation.x += velocity.x; translation.y += velocity.y`. -/
def update_player_position (s : PV) : PV :=
  ⟨⟨s.pos.x + s.vel.x, s.pos.y + s.vel.y⟩, s.vel⟩

/-- Source lines 185-189, `apply_gravity`: `velocity.value.y += -0.1`
on every `Velocity` of an entity with `Gravity`. -/
def apply_gravity (v : Vec2) : Vec2 :=
  ⟨v.x, v.y + (-(1/10 : ℚ))⟩

/-- One `FixedUpdate` tick of the player's motion: the schedule (source lines
86-96) chains `update_player_position` and then `apply_gravity`. -/
def fixedTick (s : PV) : PV :=
  let s1 := update_player_position s
  ⟨s1.pos, apply_gravity s1.vel⟩

/-- Iterates `fixedTick` with no jump input. -/
def runTicks : Nat → PV → PV
  | 0, s => s
  | n + 1, s => fixedTick (runTicks n s)

/-- Source lines 236-247, `update_velocity_on_space`: when the game is not
over and space was just pressed, set `velocity.value.y = 5.0` and reset the
sprite index to 0; otherwise change nothing. Arguments mirror the system's
reads: the `GameState` flag, the key state, and the player's
`(Velocity, TextureAtlas)`. -/
def update_velocity_on_space (is_game_over space_pressed : Bool)
    (v : Vec2) (sprite_index : Nat) : Vec2 × Nat :=
  if !is_game_over && space_pressed then (⟨v.x, 5⟩, 0) else (v, sprite_index)

/-- One fixed tick preceded by the `Update`-schedule jump system: when
`jumped` is true the jump system fired this frame (game not over, space just
pressed) and set `vel.y` to 5 before the tick. -/
def stepWithJump (jumped : Bool) (s : PV) : PV :=
  fixedTick (if jumped then ⟨s.pos, ⟨s.vel.x, 5⟩⟩ else s)

/-- Runs `n` frames from the spawned player, with an arbitrary jump input
stream `j` (frame `k` jumps iff `j k`). -/
def runWithJumps (j : Nat → Bool) : Nat → PV
  | 0 => spawn_pv
  | n + 1 => stepWithJump (j n) (runWithJumps j n)

/-- Outcome of one `check_collision` run: how many `GameOverEvent`s were sent
and whether the player entity was despawned. -/
structure CollisionResult where
  gameOverEvents : Nat
  playerDespawned : Bool
deriving DecidableEq, Repr

/-- Source lines 271-287, the per-pipe body of `check_collision`'s loop:
with `pipe_half_w = (32 * PIPE_SCALE.x) / 2`, `pipe_half_h = (48 *
PIPE_SCALE.y) / 2`, `player_half_w = -(90 * BIRD_SCALE) / 2` (note the
negation, as in the source) and `player_half_h = (50 * BIRD_SCALE) / 2`,
the nested `if`s test the four inclusive comparisons. -/
def pipeHit (p q : Transform) : Bool :=
  let pipe_x := q.translation.x
  let pipe_y := q.translation.y
  let player_x := p.translation.x
  let player_y := p.translation.y
  let pipe_half_w := (32 * PIPE_SCALE.x) / 2
  let pipe_half_h := (48 * PIPE_SCALE.y) / 2
  let player_half_w := -(90 * BIRD_SCALE) / 2
  let player_half_h := (50 * BIRD_SCALE) / 2
  (decide (player_x + player_half_w ≥ pipe_x - pipe_half_w) &&
   decide (player_x - player_half_w ≤ pipe_x + pipe_half_w)) &&
  (decide (player_y + player_half_h ≥ pipe_y - pipe_half_h) &&
   decide (player_y - player_half_h ≤ pipe_y + pipe_half_h))

/-- Source lines 249-289, `check_collision`. Returns early when the game is
over. `player_query.single()` panics unless exactly one player exists, and
`ground_query.iter().next().unwrap()` panics when no ground exists (modelled
as `.error ()`). Otherwise the player's bottom `y - 50 * BIRD_SCALE` is
compared against the first ground's top `y + 16 * GROUND_SCALE`; failing
that, the pipes are scanned linearly, breaking on the first `pipeHit`. A hit
sends one `GameOverEvent` and despawns the player. -/
def check_collision (is_game_over : Bool) (players grounds pipes : List Transform) :
    Except Unit CollisionResult :=
  if is_game_over then .ok ⟨0, false⟩
  else
    match players, grounds with
    | [p], g :: _ =>
      let player_y := p.translation.y - 50 * BIRD_SCALE
      let ground_y := g.translation.y + 16 * GROUND_SCALE
      if player_y ≤ ground_y then .ok ⟨1, true⟩
      else if pipes.any (pipeHit p) then .ok ⟨1, true⟩
      else .ok ⟨0, false⟩
    | _, _ => .error ()

/-- Player entity as the restart/spawn systems see it: its transform and its
`PlayerBundle` velocity. -/
structure PlayerEnt where
  transform : Transform
  velocity : Vec2
deriving DecidableEq, Repr

/-- Source lines 123-150, `spawn_player`: one entity at translation
`(0, 0, 2)` with scale `Vec3::splat(BIRD_SCALE)` and `PlayerBundle::default()`
velocity `(2, 0)`. (The sprite sheet, atlas layout and animation timer are
presentation-only and not modelled.) -/
def spawn_player : PlayerEnt :=
  ⟨⟨⟨0, 0, 2⟩, ⟨BIRD_SCALE, BIRD_SCALE, BIRD_SCALE⟩⟩, playerBundleDefaultVelocity⟩

/-- Game world as the event-handling systems see it: the `GameState`
resource's `is_game_over` flag, the player entities, the `GameOverText`
entities (their count; all texts are the same message), and the pipe and
ground entities. -/
structure World where
  is_game_over : Bool
  players : List PlayerEnt
  gameOverTexts : Nat
  pipes : List Transform
  grounds : List Transform
deriving DecidableEq, Repr

/-- Source lines 291-320, the body of `handle_game_over`'s event loop for a
single `GameOverEvent`: if the flag is not yet set, set it and spawn one
`GameOverText` entity; otherwise do nothing. -/
def handle_game_over_event (w : World) : World :=
  if !w.is_game_over then
    { w with is_game_over := true, gameOverTexts := w.gameOverTexts + 1 }
  else w

/-- Source lines 291-320, `handle_game_over`: reads the pending
`GameOverEvent`s (here: their number `n`) and processes each in turn. -/
def handle_game_over : Nat → World → World
  | 0, w => w
  | n + 1, w => handle_game_over n (handle_game_over_event w)

/-- Source lines 332-354, `handle_restart_event`: if the `RestartEvent`
queue is non-empty (`restart_pending`), reset `is_game_over` to false,
despawn every player and every `GameOverText` entity, call `spawn_player`
once, and clear the events; otherwise do nothing. Pipes and grounds are not
queried. -/
def handle_restart_event (restart_pending : Bool) (w : World) : World :=
  if restart_pending then
    { w with is_game_over := false
             players := [spawn_player]
             gameOverTexts := 0 }
  else w

/-- Source lines 175-183, `update_bg_position`: `camera_query.single()` and
`bg_query.single_mut()` panic unless exactly one camera and exactly one
background exist; then the background's `translation.x` is set to the
camera's. -/
def update_bg_position (cameras bgs : List Transform) :
    Except Unit (List Transform) :=
  match cameras, bgs with
  | [c], [b] =>
    .ok [{ b with translation := { b.translation with x := c.translation.x } }]
  | _, _ => .error ()

/-- Source lines 221-234, `camera_follow_player`: `q_target.get_single()`
silently skips the whole body unless exactly one player exists (`if let Ok`);
the player's global transform equals its own transform (it is a root
entity, so `compute_global_transform` returns it); then
`p1().single_mut()` panics unless exactly one camera exists, and the
camera's `translation.x` is set to the player's. -/
def camera_follow_player (players cameras : List Transform) :
    Except Unit (List Transform) :=
  match players with
  | [p] =>
    match cameras with
    | [c] =>
      .ok [{ c with translation := { c.translation with x := p.translation.x } }]
    | _ => .error ()
  | _ => .ok cameras

/-- Source lines 377-404, `spawn_pipe`: 100 pipes; pipe `i` sits at
translation `(400 + 400 * i, y, 1)` with scale `PIPE_SCALE`, where `y` is
`-200` when `rand::random()` returns true and `250` otherwise. The stream of
random booleans is a parameter `r`. -/
def spawn_pipe (r : Nat → Bool) : List Transform :=
  (List.range 100).map fun (i : ℕ) =>
    ⟨⟨400 + 400 * (i : ℚ), if r i then -200 else 250, 1⟩, PIPE_SCALE⟩

/-- Specification-words definition, for comparison with `check_collision`
only (not from the source): an axis-aligned bounding-box overlap test
between the player's box and each ground box and each pipe box, true on any
overlap. Half-extents follow the sprite sizes the source's own constants
imply: player 90 × 50 at `BIRD_SCALE` (half 45 × 25), ground tile 64 × 32
at `GROUND_SCALE` (half 32 × 32; the source itself uses
`16 * GROUND_SCALE = 32` for the ground's half-height), pipe 32 × 48 at
`PIPE_SCALE` (half 48 × 120). -/
def spec_aabb_collision (p : Transform) (grounds pipes : List Transform) : Bool :=
  let overlap : ℚ → ℚ → ℚ → ℚ → Transform → Bool := fun hw hh ohw ohh o =>
    decide (|p.translation.x - o.translation.x| ≤ hw + ohw) &&
    decide (|p.translation.y - o.translation.y| ≤ hh + ohh)
  grounds.any (overlap 45 25 32 32) || pipes.any (overlap 45 25 48 120)

/-- Specification-words definition, for comparison with `check_collision`
only (not from the source): the player's box (half-extents 45 × 25) exactly
touches a pipe's box (half-extents 48 × 120) on the pipe's left edge: the
player's right edge coincides with the pipe's left edge while the vertical
extents overlap. -/
def spec_pipe_edge_contact (p q : Transform) : Bool :=
  decide (p.translation.x + 45 = q.translation.x - 48) &&
  decide (|p.translation.y - q.translation.y| ≤ 25 + 120)

end FlappyBird

namespace FlappyBird

/-- Closed form of `n` fixed ticks: position first, then gravity, so the
velocity applied at tick `k` is the velocity after `k - 1` gravity
decrements. -/
theorem runTicks_closed (n : ℕ) (s : PV) :
    (runTicks n s).pos.x = s.pos.x + n * s.vel.x ∧
    (runTicks n s).pos.y = s.pos.y + n * s.vel.y - (n * (n - 1)) / 20 ∧
    (runTicks n s).vel.x = s.vel.x ∧
    (runTicks n s).vel.y = s.vel.y - n / 10 := by
  induction n with
  | zero => norm_num [runTicks]
  | succ n ih =>
      obtain ⟨h1, h2, h3, h4⟩ := ih
      simp only [runTicks, fixedTick, update_player_position, apply_gravity]
      push_cast
      refine ⟨by rw [h1, h3]; ring, by rw [h2, h4]; ring, by rw [h3], by rw [h4]; ring⟩

/-- C2 (corrected): for every tick count `n` and spawn position `p`, with no
jump the player's `y` after `n` fixed ticks equals
`initial_y - 0.1 * n * (n - 1) / 2` — the `update_player_position`-then-
`apply_gravity` chain applies `k - 1` gravity decrements before the `k`-th
position update, so the sum is `0.1 * (0 + 1 + ... + (n-1))`, not
`0.1 * n * (n + 1) / 2` as claimed. -/
theorem player_fall_closed_form (n : ℕ) (p : Vec2) :
    (runTicks n ⟨p, playerBundleDefaultVelocity⟩).pos.y =
      p.y - (1/10 : ℚ) * ((n * (n - 1)) / 2) := by
  have h := (runTicks_closed n ⟨p, playerBundleDefaultVelocity⟩).2.1
  rw [h]
  simp only [playerBundleDefaultVelocity]
  ring

/-- C2 counterexample: after 1 tick from a spawn at `y = 0`, the player's
`y` is still `0` (the first tick adds the still-zero velocity before
gravity), not `0 - 0.1 * 1 * (1 + 1) / 2 = -0.1` as the claim's closed form
states. -/
theorem player_fall_closed_form_cex :
    (runTicks 1 ⟨⟨0, 0⟩, playerBundleDefaultVelocity⟩).pos.y ≠
      0 - (1/10 : ℚ) * ((1 * (1 + 1)) / 2) := by
  norm_num [runTicks, fixedTick, update_player_position, apply_gravity,
    playerBundleDefaultVelocity]

/-- C6 (confirmed): when the game is not over and space was just pressed,
`update_velocity_on_space` sets the player's vertical velocity to exactly 5,
whatever the prior velocity `v` (and sprite index `idx`) were. -/
theorem jump_sets_vertical_velocity_to_five (v : Vec2) (idx : ℕ) :
    (update_velocity_on_space false true v idx).1.y = 5 := by
  simp [update_velocity_on_space]

/-- One frame with or without a jump leaves `vel.x` unchanged and advances
`pos.x` by exactly `vel.x`: the jump writes only `vel.y`, `apply_gravity`
writes only `vel.y`, and `update_player_position` adds `vel.x` to `pos.x`. -/
theorem stepWithJump_x (b : Bool) (s : PV) :
    (stepWithJump b s).vel.x = s.vel.x ∧
    (stepWithJump b s).pos.x = s.pos.x + s.vel.x := by
  cases b <;>
    simp [stepWithJump, fixedTick, update_player_position, apply_gravity]

/-- C9 (confirmed): the player's horizontal velocity is initialized to 2 by
`PlayerBundle::default` and no system modifies it, so after `n` fixed ticks
under an arbitrary jump-input stream `j` the live player's `x` equals
`2 * n` (it advances by exactly 2 each tick, regardless of input). -/
theorem horizontal_velocity_invariant (j : ℕ → Bool) (n : ℕ) :
    playerBundleDefaultVelocity.x = 2 ∧
    (runWithJumps j n).vel.x = 2 ∧
    (runWithJumps j n).pos.x = 2 * n := by
  refine ⟨rfl, ?_⟩
  induction n with
  | zero => norm_num [runWithJumps, spawn_pv, playerBundleDefaultVelocity]
  | succ n ih =>
      obtain ⟨h1, h2⟩ := ih
      obtain ⟨hv, hp⟩ := stepWithJump_x (j n) (runWithJumps j n)
      constructor
      · rw [runWithJumps, hv, h1]
      · rw [runWithJumps, hp, h1, h2]
        push_cast
        ring

/-- Characterization of the per-pipe test: because the source negates the
player's half-width (`player_half_w = -(90 * BIRD_SCALE) / 2 = -45`), the
horizontal comparisons amount to `|player_x - pipe_x| ≤ 3` (the player's
center confined to a 6-unit band around the pipe's center, an x-containment
condition rather than a box overlap), and the vertical ones to
`|player_y - pipe_y| ≤ 145`. -/
theorem pipeHit_iff (p q : Transform) :
    pipeHit p q = true ↔
      |p.translation.x - q.translation.x| ≤ 3 ∧
      |p.translation.y - q.translation.y| ≤ 145 := by
  simp only [pipeHit, PIPE_SCALE, BIRD_SCALE, Bool.and_eq_true, decide_eq_true_eq,
    ge_iff_le, abs_le]
  constructor
  · rintro ⟨⟨h1, h2⟩, h3, h4⟩
    norm_num at h1 h2 h3 h4
    exact ⟨⟨by linarith, by linarith⟩, by linarith, by linarith⟩
  · rintro ⟨⟨h1, h2⟩, h3, h4⟩
    norm_num
    exact ⟨⟨by linarith, by linarith⟩, by linarith, by linarith⟩

/-- C1 (corrected): `check_collision`, when the game is not over, exactly one
player exists and at least one ground exists, returns `.ok` with: a hit iff
the player's bottom `y - 50 * BIRD_SCALE` is at or below the FIRST ground's
top `y + 16 * GROUND_SCALE` (a y-threshold ignoring x and the other ground
tiles, not a per-ground box-overlap test), or some pipe in the linear scan
satisfies `|player_x - pipe_x| ≤ 3 ∧ |player_y - pipe_y| ≤ 145`
(x-containment from the negated half-width, not box overlap); on a hit it
sends exactly one game-over event and despawns the player, and otherwise
sends none and despawns nothing. -/
theorem collision_test_characterization (p g : Transform) (gs pipes : List Transform) :
    ∃ r, check_collision false [p] (g :: gs) pipes = .ok r ∧
      r.gameOverEvents = (if r.playerDespawned then 1 else 0) ∧
      (r.playerDespawned = true ↔
        (p.translation.y - 50 * BIRD_SCALE ≤ g.translation.y + 16 * GROUND_SCALE ∨
         ∃ q ∈ pipes, |p.translation.x - q.translation.x| ≤ 3 ∧
           |p.translation.y - q.translation.y| ≤ 145)) := by
  by_cases hg : p.translation.y - 50 * BIRD_SCALE ≤ g.translation.y + 16 * GROUND_SCALE
  · refine ⟨⟨1, true⟩, by simp [check_collision, hg], by norm_num, ?_⟩
    simp only [true_iff]
    exact Or.inl hg
  · by_cases hp : pipes.any (pipeHit p) = true
    · refine ⟨⟨1, true⟩, by simp [check_collision, hg, hp], by norm_num, ?_⟩
      simp only [true_iff]
      obtain ⟨q, hq, hhit⟩ := List.any_eq_true.mp hp
      exact Or.inr ⟨q, hq, (pipeHit_iff p q).mp hhit⟩
    · refine ⟨⟨0, false⟩, by simp [check_collision, hg, hp], by norm_num, ?_⟩
      simp only [Bool.false_eq_true, false_iff]
      rintro (h | ⟨q, hq, hband⟩)
      · exact hg h
      · exact hp (List.any_eq_true.mpr ⟨q, hq, (pipeHit_iff p q).mpr hband⟩)

/-- C1 counterexample: with the player at the origin and two ground tiles,
one far below at `(0, -1000)` and one at the origin, the player's box
overlaps the second ground's box (`spec_aabb_collision` is true), yet
`check_collision` reports no hit, sends no game-over event and despawns
nothing: it only compares `y` against the first ground entity. -/
theorem collision_test_characterization_cex :
    spec_aabb_collision ⟨⟨0, 0, 2⟩, ⟨1, 1, 1⟩⟩
        [⟨⟨0, -1000, 0⟩, ⟨2, 2, 2⟩⟩, ⟨⟨0, 0, 0⟩, ⟨2, 2, 2⟩⟩] [] = true ∧
    check_collision false [⟨⟨0, 0, 2⟩, ⟨1, 1, 1⟩⟩]
        [⟨⟨0, -1000, 0⟩, ⟨2, 2, 2⟩⟩, ⟨⟨0, 0, 0⟩, ⟨2, 2, 2⟩⟩] [] = .ok ⟨0, false⟩ := by
  constructor
  · norm_num [spec_aabb_collision]
  · norm_num [check_collision, BIRD_SCALE, GROUND_SCALE]

/-- C3 (corrected): the comparison operators are inclusive, so exact contact
counts along the boundaries the test actually checks: a player whose bottom
exactly meets the first ground's top line is a hit, and a player exactly at
a pipe's extended lower y-boundary (`player_y - pipe_y = 145`) registers
`pipeHit` provided its center is within the 3-unit x-band; but exact contact
of the player's box with a pipe's left or right edge is not reported (see
the counterexample), because the negated half-width turns the x-test into
containment. -/
theorem inclusive_boundary_amended (p g q : Transform) (gs pipes : List Transform)
    (h1 : p.translation.y - 50 * BIRD_SCALE = g.translation.y + 16 * GROUND_SCALE)
    (h2 : |p.translation.x - q.translation.x| ≤ 3)
    (h3 : p.translation.y - q.translation.y = 145) :
    check_collision false [p] (g :: gs) pipes = .ok ⟨1, true⟩ ∧ pipeHit p q = true := by
  constructor
  · simp [check_collision, le_of_eq h1]
  · rw [pipeHit_iff]
    refine ⟨h2, ?_⟩
    rw [h3]
    norm_num

/-- C3 witness: a concrete configuration satisfying the amended theorem's
hypotheses — player at the origin, ground top exactly at the player's
bottom (`g.y = -82`), and a pipe at `(0, -145)` whose extended lower
boundary the player exactly meets. -/
theorem inclusive_boundary_amended_witness :
    ((0 : ℚ) - 50 * BIRD_SCALE = -82 + 16 * GROUND_SCALE) ∧
    |(0 : ℚ) - 0| ≤ 3 ∧ ((0 : ℚ) - (-145) = 145) ∧
    (check_collision false [⟨⟨0, 0, 2⟩, ⟨1, 1, 1⟩⟩] [⟨⟨0, -82, 0⟩, ⟨2, 2, 2⟩⟩]
        [] = .ok ⟨1, true⟩ ∧
      pipeHit ⟨⟨0, 0, 2⟩, ⟨1, 1, 1⟩⟩ ⟨⟨0, -145, 1⟩, PIPE_SCALE⟩ = true) := by
  refine ⟨by norm_num [BIRD_SCALE, GROUND_SCALE], by norm_num, by norm_num, ?_⟩
  exact inclusive_boundary_amended ⟨⟨0, 0, 2⟩, ⟨1, 1, 1⟩⟩ ⟨⟨0, -82, 0⟩, ⟨2, 2, 2⟩⟩
    ⟨⟨0, -145, 1⟩, PIPE_SCALE⟩ [] []
    (by norm_num [BIRD_SCALE, GROUND_SCALE]) (by norm_num) (by norm_num)

/-- C3 counterexample: the player at `(-93, 0)` has its box's right edge
(`x + 45 = -48`) exactly touching the left edge (`x - 48`) of a pipe at the
origin, with overlapping vertical extents (`spec_pipe_edge_contact` is
true), yet `check_collision` reports no collision: with the negated
half-width the x-test requires `|player_x - pipe_x| ≤ 3`, which edge
contact at distance 93 fails. -/
theorem inclusive_boundary_cex :
    spec_pipe_edge_contact ⟨⟨-93, 0, 2⟩, ⟨1, 1, 1⟩⟩ ⟨⟨0, 0, 1⟩, PIPE_SCALE⟩ = true ∧
    check_collision false [⟨⟨-93, 0, 2⟩, ⟨1, 1, 1⟩⟩] [⟨⟨0, -268, 0⟩, ⟨2, 2, 2⟩⟩]
        [⟨⟨0, 0, 1⟩, PIPE_SCALE⟩] = .ok ⟨0, false⟩ := by
  constructor
  · norm_num [spec_pipe_edge_contact]
  · norm_num [check_collision, pipeHit, BIRD_SCALE, GROUND_SCALE, PIPE_SCALE]

/-- Once the flag is set, processing any number of further game-over events
changes nothing: each loop iteration's guard `!is_game_over` fails. -/
theorem handle_game_over_fixed (m : ℕ) (w : World) (h : w.is_game_over = true) :
    handle_game_over m w = w := by
  induction m with
  | zero => rfl
  | succ m ih =>
      have he : handle_game_over_event w = w := by
        simp [handle_game_over_event, h]
      rw [handle_game_over, he]
      exact ih

/-- C4 (confirmed): from a state where `is_game_over` is false, the first
game-over event sets the flag and spawns exactly one on-screen message;
afterwards, processing any number `m` of further game-over events spawns no
second message and leaves the whole state unchanged. -/
theorem game_over_transition_fires_once (w : World) (m : ℕ)
    (h : w.is_game_over = false) :
    (handle_game_over_event w).is_game_over = true ∧
    (handle_game_over_event w).gameOverTexts = w.gameOverTexts + 1 ∧
    handle_game_over m (handle_game_over_event w) = handle_game_over_event w := by
  have h1 : (handle_game_over_event w).is_game_over = true := by
    simp [handle_game_over_event, h]
  refine ⟨h1, ?_, handle_game_over_fixed m _ h1⟩
  simp [handle_game_over_event, h]

/-- C4 witness: the initial world (flag false, no entities) — its first
game-over event sets the flag and spawns one message, and three further
events change nothing. -/
theorem game_over_transition_fires_once_witness :
    (World.mk false [] 0 [] []).is_game_over = false ∧
    ((handle_game_over_event ⟨false, [], 0, [], []⟩).is_game_over = true ∧
     (handle_game_over_event ⟨false, [], 0, [], []⟩).gameOverTexts =
       (World.mk false [] 0 [] []).gameOverTexts + 1 ∧
     handle_game_over 3 (handle_game_over_event ⟨false, [], 0, [], []⟩) =
       handle_game_over_event ⟨false, [], 0, [], []⟩) :=
  ⟨rfl, game_over_transition_fires_once ⟨false, [], 0, [], []⟩ 3 rfl⟩

/-- C5 (confirmed): after `handle_restart_event` processes a pending restart
event, `is_game_over` is false and exactly one player entity exists, for
every prior world: all leftover players and game-over texts are despawned
and a single `spawn_player` player is spawned. -/
theorem restart_resets_state (w : World) :
    (handle_restart_event true w).is_game_over = false ∧
    (handle_restart_event true w).players.length = 1 ∧
    (handle_restart_event true w).players = [spawn_player] ∧
    (handle_restart_event true w).gameOverTexts = 0 := by
  simp [handle_restart_event]

/-- C7 (corrected): only `camera_follow_player`'s player lookup degrades
silently by early return (an absent player leaves the cameras untouched, in
the `.ok` branch). The other fallible lookups panic rather than
early-return: `update_bg_position` panics when the camera or the background
entity is absent, and `check_collision`, whenever the game is not over,
panics when the player or every ground entity is absent; only the game-over
guard makes `check_collision` return without touching its queries. -/
theorem fallible_lookup_behavior :
    (∀ cams : List Transform, camera_follow_player [] cams = .ok cams) ∧
    (∀ b : Transform, update_bg_position [] [b] = .error ()) ∧
    (∀ c : Transform, update_bg_position [c] [] = .error ()) ∧
    (∀ p : Transform, ∀ pipes : List Transform,
      check_collision false [p] [] pipes = .error ()) ∧
    (∀ grounds pipes : List Transform, check_collision false [] grounds pipes = .error ()) ∧
    (∀ players grounds pipes : List Transform,
      check_collision true players grounds pipes = .ok ⟨0, false⟩) := by
  refine ⟨fun cams => rfl, fun b => rfl, fun c => rfl, fun p pipes => rfl, ?_, ?_⟩
  · intro grounds pipes
    cases grounds <;> rfl
  · intro players grounds pipes
    rfl

/-- C7 counterexample: with the game not over, a player present but no
ground entity spawned, `check_collision` reaches the panicking
`ground_query.iter().next().unwrap()` path (modelled `.error ()`) instead of
degrading silently by early return. -/
theorem fallible_lookup_behavior_cex :
    check_collision false [⟨⟨0, 0, 2⟩, ⟨1, 1, 1⟩⟩] [] [] = .error () := rfl

/-- C8 (confirmed): `handle_restart_event` queries only the player and
game-over-text entities: for every prior world, every pipe and every ground
entity is unchanged by a restart, while the players are replaced by the
single fresh spawn and the game-over texts are all removed. -/
theorem restart_preserves_pipes_and_grounds (w : World) :
    (handle_restart_event true w).pipes = w.pipes ∧
    (handle_restart_event true w).grounds = w.grounds ∧
    (handle_restart_event true w).players = [spawn_player] ∧
    (handle_restart_event true w).gameOverTexts = 0 := by
  simp [handle_restart_event]

/-- C10 (confirmed): for every random stream `r`, `spawn_pipe` spawns
exactly 100 pipes, and the `i`-th pipe sits at `x = 400 + 400 * i`,
`z = 1`, with `y` either `-200` or `250` (per the random draw). -/
theorem spawn_pipe_layout (r : ℕ → Bool) (i : ℕ) (h : i < (spawn_pipe r).length) :
    (spawn_pipe r).length = 100 ∧
    ((spawn_pipe r).get ⟨i, h⟩).translation.x = 400 + 400 * (i : ℚ) ∧
    (((spawn_pipe r).get ⟨i, h⟩).translation.y = -200 ∨
     ((spawn_pipe r).get ⟨i, h⟩).translation.y = 250) ∧
    ((spawn_pipe r).get ⟨i, h⟩).translation.z = 1 := by
  have hl : (spawn_pipe r).length = 100 := by simp [spawn_pipe]
  refine ⟨hl, ?_, ?_, ?_⟩
  · simp [spawn_pipe]
  · simp only [spawn_pipe, List.get_eq_getElem, List.getElem_map, List.getElem_range]
    cases hr : r i <;> simp [hr]
  · simp [spawn_pipe]

/-- C10 witness: with the random stream constantly true, pipe 0 is at
`x = 400`, `y = -200`, `z = 1`, and there are 100 pipes. -/
theorem spawn_pipe_layout_witness :
    0 < (spawn_pipe (fun _ => true)).length ∧
    ((spawn_pipe (fun _ => true)).length = 100 ∧
     ((spawn_pipe (fun _ => true)).get ⟨0, by simp [spawn_pipe]⟩).translation.x =
       400 + 400 * ((0 : ℕ) : ℚ) ∧
     (((spawn_pipe (fun _ => true)).get ⟨0, by simp [spawn_pipe]⟩).translation.y = -200 ∨
      ((spawn_pipe (fun _ => true)).get ⟨0, by simp [spawn_pipe]⟩).translation.y = 250) ∧
     ((spawn_pipe (fun _ => true)).get ⟨0, by simp [spawn_pipe]⟩).translation.z = 1) :=
  ⟨by simp [spawn_pipe], spawn_pipe_layout (fun _ => true) 0 (by simp [spawn_pipe])⟩

end FlappyBird
